import Mathlib

/-!
Shallow embedding of the code-extraction pipeline of
`monty/exts/info/codeblock_buttons.py` (class `CodeButtons`):
the functions `get_code`, `check_paste_link` and `parse_code`, together
with models of the pieces of the standard library and of the environment
they use (regular-expression search for `PASTE_REGEX`, query extraction by
`urllib.parse.urlparse` / `parse_qs`, `str.format`, the HTTP client, and
the sibling cogs looked up through `bot.get_cog`).

Machine conventions:
- strings are Lean `String`s, manipulated through their `List Char` data
  so that every function is structurally recursive and kernel-evaluable;
- Python `Optional[str]` is `Option String`; Python truthiness of an
  `Optional[str]` (`if code:`) is the predicate `truthy` below
  (`None` and the empty string are falsy);
- the one exception the pipeline can raise (`KeyError` from
  `query_strings["id"][0]`) is modelled with `Except PyError`;
- the HTTP fetch (`bot.http_session.get`) is an environment function
  `fetch : String → Nat × String` returning status and body; the cogs
  resolved dynamically by `get_snekbox` / `get_codeblock_cog` are
  `Option`-valued environment fields holding the single method each cog
  contributes to this pipeline (`Snekbox.prepare_input`,
  `CodeBlockCog.is_python_code`).
-/

set_option autoImplicit false

namespace Monty

/-- Python `\s` on the ASCII range: the whitespace classes used by
`PASTE_REGEX`'s `\S+`. -/
def isPySpace (c : Char) : Bool :=
  c = ' ' || c = '\t' || c = '\n' || c = '\r' || c = '\x0b' || c = '\x0c'

/-- Match a literal list of characters at the head of the input, returning
the remainder on success. -/
def matchLit : List Char → List Char → Option (List Char)
  | [], cs => some cs
  | _, [] => none
  | p :: ps, c :: cs => if c = p then matchLit ps cs else none

/-- Match `paste\.(disnake|nextcord)\.dev\/\S+` at the head of the input,
returning the matched characters (the `\S+` is greedy, as in Python). -/
def matchHostTail (cs : List Char) : Option (List Char) :=
  match matchLit "paste.disnake.dev/".data cs with
  | some rest =>
    let run := rest.takeWhile (fun c => !isPySpace c)
    if run.isEmpty then none else some ("paste.disnake.dev/".data ++ run)
  | none =>
    match matchLit "paste.nextcord.dev/".data cs with
    | some rest =>
      let run := rest.takeWhile (fun c => !isPySpace c)
      if run.isEmpty then none else some ("paste.nextcord.dev/".data ++ run)
    | none => none

/-- Match the whole of `PASTE_REGEX` at the head of the input: the optional
scheme group `(https?:\/\/)?` is tried greedily (`https://`, then
`http://`, then empty), exactly as Python's backtracking engine does. -/
def matchAt (cs : List Char) : Option (List Char) :=
  match matchLit "https://".data cs with
  | some rest =>
    match matchHostTail rest with
    | some m => some ("https://".data ++ m)
    | none => matchHostTail cs
  | none =>
    match matchLit "http://".data cs with
    | some rest =>
      match matchHostTail rest with
      | some m => some ("http://".data ++ m)
      | none => matchHostTail cs
    | none => matchHostTail cs

/-- Leftmost match: try each start position from the left, as
`re.Pattern.search` does. -/
def searchFrom : List Char → Option (List Char)
  | [] => none
  | c :: cs =>
    match matchAt (c :: cs) with
    | some m => some m
    | none => searchFrom cs

/-- Model of `PASTE_REGEX.search(content)` followed by `match.group()`:
the first (leftmost) substring matching
`(https?:\/\/)?paste\.(disnake|nextcord)\.dev\/\S+`, or `none`. -/
def PASTE_REGEX_search (content : String) : Option String :=
  (searchFrom content.data).map (fun m => ⟨m⟩)

/-- Split a character list at the first occurrence of `sep`, if any. -/
def breakCh (sep : Char) : List Char → Option (List Char × List Char)
  | [] => none
  | c :: cs =>
    if c = sep then some ([], cs)
    else (breakCh sep cs).map (fun p => (c :: p.1, p.2))

/-- Model of the `.query` component of `urllib.parse.urlparse(url)`:
the fragment is split off at the first `#`, then the query is everything
after the first `?` of what remains. (Scheme and netloc contain neither
`?` nor `#`, so this agrees with `urlsplit` on every input the pipeline
builds.) -/
def urlQuery (url : List Char) : List Char :=
  let preFragment := match breakCh '#' url with
    | some p => p.1
    | none => url
  match breakCh '?' preFragment with
  | some p => p.2
  | none => []

/-- Split on `&`, the field separator of `urllib.parse.parse_qs`. -/
def splitAmpAux (acc : List Char) : List Char → List (List Char)
  | [] => [acc.reverse]
  | c :: cs =>
    if c = '&' then acc.reverse :: splitAmpAux [] cs
    else splitAmpAux (c :: acc) cs

/-- The `+` → space decoding step of `parse_qs`. (Percent-escapes are not
decoded in this model; no claim exercises them.) -/
def plusDecode (cs : List Char) : List Char :=
  cs.map (fun c => if c = '+' then ' ' else c)

/-- Model of `urllib.parse.parse_qs(query)` as an ordered pair list:
fields are split on `&`, a field without `=` is dropped, and a field whose
value is empty is dropped (`keep_blank_values` defaults to `False`). -/
def qsPairs (query : List Char) : List (List Char × List Char) :=
  (splitAmpAux [] query).filterMap fun field =>
    match breakCh '=' field with
    | none => none
    | some p =>
      if p.2.isEmpty then none else some (plusDecode p.1, plusDecode p.2)

/-- Model of `query_strings["id"][0]`: the first value bound to key `id`,
or `none` where Python raises `KeyError`. -/
def qsIdFirst (pairs : List (List Char × List Char)) : Option (List Char) :=
  (pairs.find? (fun p => p.1 = "id".data)).map (fun p => p.2)

/-- Model of `Paste.raw_paste_endpoint.format(key=id)`: substitute `id`
for each occurrence of the placeholder `\x7bkey\x7d` in the template. -/
def formatKey (id : List Char) : List Char → List Char
  | '\x7b' :: 'k' :: 'e' :: 'y' :: '\x7d' :: cs => id ++ formatKey id cs
  | c :: cs => c :: formatKey id cs
  | [] => []

/-- The one exception the embedded pipeline can raise: the `KeyError`
from `query_strings["id"][0]` in `check_paste_link`. -/
inductive PyError where
  | keyError (key : String)
deriving DecidableEq

/-- The environment of `CodeButtons`: the two sibling cogs resolved by
`bot.get_cog` (each reduced to the single method this pipeline calls) and
the HTTP client with the configured raw-paste endpoint template. -/
structure Bot where
  /-- `get_cog("Snekbox")`, reduced to its `prepare_input(content, require_fenced)`. -/
  snekbox : Option (String → Bool → String)
  /-- `get_cog("Code Block")`, reduced to its `is_python_code(content)`. -/
  codeBlockCog : Option (String → Bool)
  /-- `Paste.raw_paste_endpoint`, a URL template with a `\x7bkey\x7d` hole. -/
  raw_paste_endpoint : String
  /-- `http_session.get(url)`, returning `(status, body text)`. -/
  fetch : String → Nat × String

/-- `MAX_LEN = 20_000` (codeblock_buttons.py line 29). -/
def MAX_LEN : Nat := 20000

/-- Python truthiness of an `Optional[str]`: `None` and `""` are falsy. -/
def truthy : Option String → Bool
  | none => false
  | some s => !s.isEmpty

/-- `CodeButtons.get_code` (lines 39-52): `None` if the Snekbox cog is
missing, `None` if `prepare_input` yields nothing, `None` if the language
check is requested, available, and fails; otherwise the prepared code. -/
def get_code (bot : Bot) (content : String)
    (require_fenced : Bool := false) (check_is_python : Bool := false) :
    Option String :=
  match bot.snekbox with
  | none => none
  | some prepare =>
    let code := prepare content require_fenced
    if code.isEmpty then none
    else if check_is_python then
      match bot.codeBlockCog with
      | some isPython => if !isPython code then none else some code
      | none => some code
    else some code

/-- `CodeButtons.check_paste_link` (lines 54-67): search for
`PASTE_REGEX`; on no match return `None`; on a match, take the first `id`
query value (raising `KeyError` when there is none, exactly as
`query_strings["id"][0]` does), build the raw-endpoint URL and fetch it;
a non-200 status becomes `None`, a 200 returns the body verbatim. -/
def check_paste_link (bot : Bot) (content : String) :
    Except PyError (Option String) :=
  match PASTE_REGEX_search content with
  | none => .ok none
  | some matched =>
    match qsIdFirst (qsPairs (urlQuery matched.data)) with
    | none => .error (.keyError "id")
    | some id =>
      let url : String := ⟨formatKey id bot.raw_paste_endpoint.data⟩
      let resp := bot.fetch url
      if resp.1 ≠ 200 then .ok none else .ok (some resp.2)

/-- The eligibility filter at the tail of `parse_code` (lines 84-88):
`if not code or len(code) > MAX_LEN: return False, None, None` and
otherwise `return True, code, is_paste`. -/
def finalize (code : Option String) (is_paste : Bool) :
    Bool × Option String × Option Bool :=
  match code with
  | none => (false, none, none)
  | some s =>
    if s.isEmpty || s.length > MAX_LEN then (false, none, none)
    else (true, some s, some is_paste)

/-- `CodeButtons.parse_code` (lines 69-88): try the paste link; when it
yields a truthy body, that body is the candidate with `is_paste = True`;
otherwise the candidate comes from `get_code` with `is_paste = False`;
then the eligibility filter decides. A `KeyError` raised inside
`check_paste_link` propagates to the caller. -/
def parse_code (bot : Bot) (content : String)
    (require_fenced : Bool := false) (check_is_python : Bool := false) :
    Except PyError (Bool × Option String × Option Bool) :=
  match check_paste_link bot content with
  | .error e => .error e
  | .ok pasteCode =>
    if truthy pasteCode then .ok (finalize pasteCode true)
    else .ok (finalize (get_code bot content require_fenced check_is_python) false)

/-- Whitespace for the trimming steps of the modelled inline extractor. -/
def isWsp (c : Char) : Bool :=
  c = ' ' || c = '\t' || c = '\n' || c = '\r'

/-- Trim leading and trailing whitespace from a character list. -/
def trimCh (cs : List Char) : List Char :=
  ((cs.dropWhile isWsp).reverse.dropWhile isWsp).reverse

/-- Split at the first triple-backtick fence marker, if any: returns the
text before the marker and the text after it. -/
def breakFence : List Char → Option (List Char × List Char)
  | [] => none
  | c :: cs =>
    if c = '\x60' then
      match cs with
      | c2 :: c3 :: rest =>
        if c2 = '\x60' && c3 = '\x60' then some ([], rest)
        else (breakFence cs).map (fun p => (c :: p.1, p.2))
      | _ => (breakFence cs).map (fun p => (c :: p.1, p.2))
    else (breakFence cs).map (fun p => (c :: p.1, p.2))

/-- Drop the language tag of an opening fence: when the region's first
line is non-empty and purely alphabetic, the code starts after it. -/
def dropLangTag (cs : List Char) : List Char :=
  match breakCh '\n' cs with
  | none => cs
  | some p => if !p.1.isEmpty && p.1.all Char.isAlpha then p.2 else cs

/-- Modelled from the spec: the inner content of the first fenced code
region of the text — the region between the first two triple-backtick
markers, its optional language tag dropped, trimmed of surrounding blank
space — or `none` when the text has no fenced region (§4.2 of the spec). -/
def extractFenced (cs : List Char) : Option (List Char) :=
  match breakFence cs with
  | none => none
  | some opened =>
    match breakFence opened.2 with
    | none => none
    | some inner => some (trimCh (dropLangTag inner.1))

/-- Modelled from the spec: `Snekbox.prepare_input` (the Inline
Extractor, §4.2), whose source lives outside this repository's files.
If a fenced region is found its inner content is returned; otherwise,
with `require_fenced` false, the entire message is returned as-is when it
is non-empty after trimming; with `require_fenced` true, nothing is
returned (the empty string is Python-falsy, read by `get_code` as
"no code"). -/
def prepare_input (content : String) (require_fenced : Bool) : String :=
  match extractFenced content.data with
  | some inner => ⟨inner⟩
  | none =>
    if require_fenced then ""
    else if (trimCh content.data).isEmpty then "" else content

/-- Environment for the refutation of the no-fallback claim: the
spec-modelled inline extractor is installed as the Snekbox cog, and every
fetch fails with status 404. -/
def botFetchFail : Bot :=
  ⟨some prepare_input, none, "https://paste.example/raw/{key}",
    fun _ => (404, "")⟩

/-- Environment for the refutation of the never-raises claim: no cogs,
and every fetch succeeds. -/
def botNoId : Bot :=
  ⟨none, none, "https://paste.example/raw/{key}", fun _ => (200, "body")⟩

/-- Helper: a non-empty string has `isEmpty = false`. -/
theorem isEmpty_false_of_ne {s : String} (h : s ≠ "") : s.isEmpty = false := by
  cases he : s.isEmpty
  · rfl
  · exact absurd ((String.isEmpty_iff s).mp he) h

/-- Helper: a string with `isEmpty = false` is non-empty. -/
theorem ne_empty_of_isEmpty_false {s : String} (h : s.isEmpty = false) :
    s ≠ "" := by
  intro he
  subst he
  exact absurd h (by decide)

/-- Helper: once `check_paste_link` resolves, `parse_code` is the
eligibility filter applied to the paste body (when truthy) or to the
inline extraction, with the matching origin flag. -/
theorem parse_code_ok_cases (bot : Bot) (content : String) (rf cp : Bool)
    (pc : Option String) (h : check_paste_link bot content = .ok pc) :
    parse_code bot content rf cp =
      (if truthy pc then .ok (finalize pc true)
       else .ok (finalize (get_code bot content rf cp) false)) := by
  unfold parse_code
  rw [h]

/-- Helper: an exception inside `check_paste_link` propagates through
`parse_code` unchanged. -/
theorem parse_code_of_err (bot : Bot) (content : String) (rf cp : Bool)
    (e : PyError) (h : check_paste_link bot content = .error e) :
    parse_code bot content rf cp = .error e := by
  unfold parse_code
  rw [h]

/-- Helper: when the eligibility filter accepts, the accepted code is a
non-empty string of length at most `MAX_LEN`. -/
theorem finalize_eq_true (code : Option String) (ip0 : Bool)
    (c : Option String) (ip : Option Bool)
    (h : finalize code ip0 = (true, c, ip)) :
    ∃ s, c = some s ∧ s ≠ "" ∧ s.length ≤ MAX_LEN := by
  cases code with
  | none => simp [finalize] at h
  | some s =>
    simp only [finalize] at h
    split at h
    · simp at h
    · next hs =>
      simp only [Bool.or_eq_true, decide_eq_true_eq, not_or, not_lt,
        Bool.not_eq_true] at hs
      simp only [Prod.mk.injEq] at h
      exact ⟨s, h.2.1.symm, ne_empty_of_isEmpty_false hs.1, hs.2⟩

/-- Helper: the eligibility filter accepts exactly the non-empty
candidates of length at most `MAX_LEN`, and then returns the candidate
together with its origin flag. -/
theorem finalize_spec (code : Option String) (ip0 : Bool) :
    (finalize code ip0 = (false, none, none) ↔
      ¬ ∃ s, code = some s ∧ s ≠ "" ∧ s.length ≤ MAX_LEN) ∧
    (∀ s, code = some s → s ≠ "" → s.length ≤ MAX_LEN →
      finalize code ip0 = (true, some s, some ip0)) := by
  constructor
  · cases code with
    | none => simp [finalize]
    | some s =>
      simp only [finalize]
      split
      · next hs =>
        simp only [Bool.or_eq_true, decide_eq_true_eq] at hs
        constructor
        · intro _
          rintro ⟨t, hts, htne, htlen⟩
          rw [Option.some.injEq] at hts
          cases hs with
          | inl h1 =>
            exact htne (hts ▸ (String.isEmpty_iff s).mp h1)
          | inr h2 =>
            rw [← hts] at htlen
            omega
        · intro _
          rfl
      · next hs =>
        simp only [Bool.or_eq_true, decide_eq_true_eq, not_or, not_lt,
          Bool.not_eq_true] at hs
        constructor
        · intro h
          simp at h
        · intro h
          exact absurd ⟨s, rfl, ne_empty_of_isEmpty_false hs.1, hs.2⟩ h
  · intro s hcode hne hlen
    subst hcode
    simp only [finalize]
    rw [if_neg]
    simp only [Bool.or_eq_true, decide_eq_true_eq, not_or, not_lt,
      Bool.not_eq_true]
    exact ⟨isEmpty_false_of_ne hne, hlen⟩

/-- Claim C3: whenever `parse_code` returns a success outcome, the
returned code string is non-empty and its length is at most 20000
(`MAX_LEN`) characters. -/
theorem parse_code_success_bounds (bot : Bot) (content : String)
    (rf cp : Bool) (c : Option String) (ip : Option Bool)
    (h : parse_code bot content rf cp = .ok (true, c, ip)) :
    ∃ s, c = some s ∧ s ≠ "" ∧ s.length ≤ MAX_LEN := by
  cases hc : check_paste_link bot content with
  | error e =>
    rw [parse_code_of_err bot content rf cp e hc] at h
    exact absurd h (by simp)
  | ok pc =>
    rw [parse_code_ok_cases bot content rf cp pc hc] at h
    by_cases ht : truthy pc = true
    · rw [if_pos ht] at h
      exact finalize_eq_true pc true c ip (Except.ok.inj h)
    · rw [if_neg ht] at h
      exact finalize_eq_true _ false c ip (Except.ok.inj h)

/-- Witness for C3 at a concrete input: a message holding a paste link
whose fetch returns status 200 with body `x = 1` is accepted, and the
theorem's bounds hold of that body. -/
theorem parse_code_success_bounds_witness :
    ∃ s, (some "x = 1" : Option String) = some s ∧ s ≠ "" ∧
      s.length ≤ MAX_LEN :=
  parse_code_success_bounds
    ⟨none, none, "https://paste.example/raw/{key}", fun _ => (200, "x = 1")⟩
    "paste.disnake.dev/?id=abcd" false false (some "x = 1") (some true)
    (by rfl)

/-- Claim C4: given the paste-resolution outcome, `parse_code` rejects
exactly when the candidate code (the fetched paste body when truthy,
otherwise the inline extraction) is absent, empty, or longer than 20000
characters, and accepts the candidate otherwise — so a candidate of
length exactly 20000 is accepted. -/
theorem parse_code_eligibility (bot : Bot) (content : String)
    (rf cp : Bool) (pc : Option String)
    (h : check_paste_link bot content = .ok pc) :
    (parse_code bot content rf cp = .ok (false, none, none) ↔
      ¬ ∃ s, (if truthy pc then pc else get_code bot content rf cp)
        = some s ∧ s ≠ "" ∧ s.length ≤ MAX_LEN) ∧
    (∀ s, (if truthy pc then pc else get_code bot content rf cp) = some s →
      s ≠ "" → s.length ≤ MAX_LEN →
      parse_code bot content rf cp = .ok (true, some s, some (truthy pc))) := by
  rw [parse_code_ok_cases bot content rf cp pc h]
  by_cases ht : truthy pc = true
  · simp only [if_pos ht]
    rw [ht]
    constructor
    · rw [← (finalize_spec pc true).1]
      constructor
      · exact fun hh => Except.ok.inj hh
      · exact fun hh => hh ▸ rfl
    · intro s hs hne hlen
      rw [(finalize_spec pc true).2 s hs hne hlen]
  · simp only [if_neg ht]
    rw [Bool.not_eq_true] at ht
    rw [ht]
    constructor
    · rw [← (finalize_spec (get_code bot content rf cp) false).1]
      constructor
      · exact fun hh => Except.ok.inj hh
      · exact fun hh => hh ▸ rfl
    · intro s hs hne hlen
      rw [(finalize_spec (get_code bot content rf cp) false).2 s hs hne hlen]

/-- Witness for C4 at a concrete input: with no paste link and no Snekbox
cog the candidate is absent, and the claim's characterization evaluates to
a rejection. -/
theorem parse_code_eligibility_witness :
    (parse_code ⟨none, none, "r/{key}", fun _ => (200, "ok")⟩ "abc"
        false false = .ok (false, none, none) ↔
      ¬ ∃ s, (if truthy none then (none : Option String)
          else get_code ⟨none, none, "r/{key}", fun _ => (200, "ok")⟩ "abc"
            false false) = some s ∧ s ≠ "" ∧ s.length ≤ MAX_LEN) ∧
    (∀ s, (if truthy none then (none : Option String)
        else get_code ⟨none, none, "r/{key}", fun _ => (200, "ok")⟩ "abc"
          false false) = some s →
      s ≠ "" → s.length ≤ MAX_LEN →
      parse_code ⟨none, none, "r/{key}", fun _ => (200, "ok")⟩ "abc"
        false false = .ok (true, some s, some (truthy none))) :=
  parse_code_eligibility ⟨none, none, "r/{key}", fun _ => (200, "ok")⟩
    "abc" false false none (by rfl)

example : PASTE_REGEX_search "no code here" = none := by decide
example : PASTE_REGEX_search "paste.disnake.dev/?id=abcd" =
    some "paste.disnake.dev/?id=abcd" := by decide
example : PASTE_REGEX_search "see https://paste.disnake.dev/?id=ab now" =
    some "https://paste.disnake.dev/?id=ab" := by decide
example : qsIdFirst (qsPairs (urlQuery "paste.disnake.dev/?id=abcd".data)) =
    some "abcd".data := by decide
example : qsIdFirst (qsPairs (urlQuery "paste.disnake.dev/x".data)) = none := by
  decide
/-- Helper: with no regex match, `check_paste_link` returns `None`
without an error. -/
theorem check_paste_link_of_no_match (bot : Bot) (content : String)
    (hm : PASTE_REGEX_search content = none) :
    check_paste_link bot content = .ok none := by
  unfold check_paste_link
  simp only [hm]

/-- Helper: with a regex match whose query holds an `id`, the result of
`check_paste_link` is decided by the status of the single fetch. -/
theorem check_paste_link_of_match (bot : Bot) (content m : String)
    (idc : List Char)
    (hm : PASTE_REGEX_search content = some m)
    (hid : qsIdFirst (qsPairs (urlQuery m.data)) = some idc) :
    check_paste_link bot content =
      (if (bot.fetch ⟨formatKey idc bot.raw_paste_endpoint.data⟩).1 ≠ 200
       then .ok none
       else .ok (some (bot.fetch ⟨formatKey idc bot.raw_paste_endpoint.data⟩).2)) := by
  unfold check_paste_link
  simp only [hm, hid]

/-- Helper: `get_code` is `none` whenever the Snekbox cog is absent. -/
theorem get_code_of_no_snekbox (bot : Bot) (hsb : bot.snekbox = none)
    (content : String) (rf cp : Bool) :
    get_code bot content rf cp = none := by
  unfold get_code
  rw [hsb]

/-- Claim C5: a message with no paste URL and no fenced code block is
rejected by `parse_code` when `require_fenced` is true, whether the
Snekbox cog is absent or is the spec-modelled inline extractor. -/
theorem parse_code_require_fenced_rejects (bot : Bot) (content : String)
    (cp : Bool)
    (hsb : bot.snekbox = none ∨ bot.snekbox = some prepare_input)
    (hp : PASTE_REGEX_search content = none)
    (hf : extractFenced content.data = none) :
    parse_code bot content true cp = .ok (false, none, none) := by
  have hcpl := check_paste_link_of_no_match bot content hp
  rw [parse_code_ok_cases bot content true cp none hcpl]
  rw [if_neg (by decide)]
  have hgc : get_code bot content true cp = none := by
    cases hsb with
    | inl h => exact get_code_of_no_snekbox bot h content true cp
    | inr h =>
      unfold get_code
      rw [h]
      have hpi : prepare_input content true = "" := by
        unfold prepare_input
        rw [hf]
        rfl
      simp only [hpi]
      rfl
  rw [hgc]
  rfl

/-- Witness for C5: the message `no code here` with `require_fenced`
true is rejected. -/
theorem parse_code_require_fenced_rejects_witness :
    parse_code
      ⟨some prepare_input, none, "https://paste.example/raw/{key}",
        fun _ => (200, "ok")⟩
      "no code here" true false = .ok (false, none, none) :=
  parse_code_require_fenced_rejects
    ⟨some prepare_input, none, "https://paste.example/raw/{key}",
      fun _ => (200, "ok")⟩
    "no code here" false (Or.inr rfl) (by decide) (by decide)

/-- Claim C6: with no substring matching the paste URL pattern,
`check_paste_link` returns `None` without an error, and `parse_code`
falls back to the inline extraction `get_code` with the given flags,
applying the eligibility filter to it with the inline origin. -/
theorem no_match_falls_back_to_get_code (bot : Bot) (content : String)
    (rf cp : Bool) (hp : PASTE_REGEX_search content = none) :
    check_paste_link bot content = .ok none ∧
    parse_code bot content rf cp =
      .ok (finalize (get_code bot content rf cp) false) := by
  have h1 := check_paste_link_of_no_match bot content hp
  refine ⟨h1, ?_⟩
  rw [parse_code_ok_cases bot content rf cp none h1]
  rw [if_neg (by decide)]

/-- Witness for C6 at the message `hello world`. -/
theorem no_match_falls_back_to_get_code_witness :
    check_paste_link
        ⟨none, none, "https://paste.example/raw/{key}", fun _ => (200, "x")⟩
        "hello world" = .ok none ∧
    parse_code
        ⟨none, none, "https://paste.example/raw/{key}", fun _ => (200, "x")⟩
        "hello world" false false =
      .ok (finalize
        (get_code
          ⟨none, none, "https://paste.example/raw/{key}", fun _ => (200, "x")⟩
          "hello world" false false) false) :=
  no_match_falls_back_to_get_code
    ⟨none, none, "https://paste.example/raw/{key}", fun _ => (200, "x")⟩
    "hello world" false false (by decide)

/-- Claim C7: with the collaborators fixed functions of the environment,
`parse_code` is deterministic — two invocations on identical input yield
identical results. -/
theorem parse_code_deterministic (bot : Bot) (content : String)
    (rf cp : Bool)
    (r₁ r₂ : Except PyError (Bool × Option String × Option Bool))
    (h₁ : parse_code bot content rf cp = r₁)
    (h₂ : parse_code bot content rf cp = r₂) : r₁ = r₂ := by
  rw [← h₁, ← h₂]

/-- Witness for C7: two runs on the message `two runs` in the same
environment produce the same rejection. -/
theorem parse_code_deterministic_witness :
    (Except.ok (false, none, none) :
      Except PyError (Bool × Option String × Option Bool)) =
      .ok (false, none, none) :=
  parse_code_deterministic
    ⟨none, none, "https://paste.example/raw/{key}", fun _ => (200, "")⟩
    "two runs" false false (.ok (false, none, none)) (.ok (false, none, none))
    (by rfl) (by rfl)

/-- Claim C8: a fetch that succeeds with status 200 but an empty body is
treated as no paste resolved: `check_paste_link` returns the empty body,
which is falsy, so `parse_code` takes the inline branch (origin flag
false) and extracts from the original message text. -/
theorem empty_body_falls_back_to_get_code (bot : Bot) (content m : String)
    (idc : List Char) (rf cp : Bool)
    (hm : PASTE_REGEX_search content = some m)
    (hid : qsIdFirst (qsPairs (urlQuery m.data)) = some idc)
    (hfetch : bot.fetch ⟨formatKey idc bot.raw_paste_endpoint.data⟩ = (200, "")) :
    check_paste_link bot content = .ok (some "") ∧
    parse_code bot content rf cp =
      .ok (finalize (get_code bot content rf cp) false) := by
  have h1 : check_paste_link bot content = .ok (some "") := by
    rw [check_paste_link_of_match bot content m idc hm hid, hfetch]
    rfl
  refine ⟨h1, ?_⟩
  rw [parse_code_ok_cases bot content rf cp (some "") h1]
  rw [if_neg (by decide)]

/-- Witness for C8: a paste link whose fetch yields `(200, "")`, in an
environment without cogs, is rejected through the inline branch. -/
theorem empty_body_falls_back_to_get_code_witness :
    check_paste_link
        ⟨none, none, "https://paste.example/raw/{key}", fun _ => (200, "")⟩
        "paste.disnake.dev/?id=ab" = .ok (some "") ∧
    parse_code
        ⟨none, none, "https://paste.example/raw/{key}", fun _ => (200, "")⟩
        "paste.disnake.dev/?id=ab" false false =
      .ok (finalize
        (get_code
          ⟨none, none, "https://paste.example/raw/{key}", fun _ => (200, "")⟩
          "paste.disnake.dev/?id=ab" false false) false) :=
  empty_body_falls_back_to_get_code
    ⟨none, none, "https://paste.example/raw/{key}", fun _ => (200, "")⟩
    "paste.disnake.dev/?id=ab" "paste.disnake.dev/?id=ab" "ab".data
    false false (by decide) (by decide) (by rfl)

/-- Claim C9: without the Snekbox cog, `get_code` returns `None` for
every input, so `parse_code` rejects every message whose paste
resolution does not yield a truthy (non-empty) body. -/
theorem no_snekbox_rejects (bot : Bot) (hsb : bot.snekbox = none) :
    (∀ content rf cp, get_code bot content rf cp = none) ∧
    (∀ content rf cp pc, check_paste_link bot content = .ok pc →
      truthy pc = false →
      parse_code bot content rf cp = .ok (false, none, none)) := by
  refine ⟨fun content rf cp => get_code_of_no_snekbox bot hsb content rf cp, ?_⟩
  intro content rf cp pc hcpl ht
  rw [parse_code_ok_cases bot content rf cp pc hcpl]
  rw [if_neg (by rw [ht]; exact Bool.false_ne_true)]
  rw [get_code_of_no_snekbox bot hsb content rf cp]
  rfl

/-- Witness for C9: an environment without the Snekbox cog, where a
paste link fetch fails with 404, rejects a message that contains a paste
link. -/
theorem no_snekbox_rejects_witness :
    (∀ content rf cp,
      get_code
        ⟨none, none, "https://paste.example/raw/{key}", fun _ => (404, "")⟩
        content rf cp = none) ∧
    (∀ content rf cp pc,
      check_paste_link
          ⟨none, none, "https://paste.example/raw/{key}", fun _ => (404, "")⟩
          content = .ok pc →
      truthy pc = false →
      parse_code
          ⟨none, none, "https://paste.example/raw/{key}", fun _ => (404, "")⟩
          content rf cp = .ok (false, none, none)) :=
  no_snekbox_rejects
    ⟨none, none, "https://paste.example/raw/{key}", fun _ => (404, "")⟩ rfl

/-- Claim C10: when `check_is_python` is true but the Code Block cog is
not registered, the language check is skipped: `get_code` returns the
prepared code (when non-empty) without consulting any classifier. -/
theorem no_codeblock_cog_skips_language_check (bot : Bot)
    (hcb : bot.codeBlockCog = none)
    (prepare : String → Bool → String) (hsb : bot.snekbox = some prepare)
    (content : String) (rf : Bool) :
    get_code bot content rf true =
      (if (prepare content rf).isEmpty then none
       else some (prepare content rf)) := by
  unfold get_code
  simp only [hsb, hcb]
  simp

/-- Witness for C10: with the Code Block cog absent and an identity
extractor, `get_code` with the language check requested returns the
message unchecked. -/
theorem no_codeblock_cog_skips_language_check_witness :
    get_code
        ⟨some (fun c _ => c), none, "https://paste.example/raw/{key}",
          fun _ => (200, "")⟩
        "print(2)" false true =
      (if (("print(2)" : String)).isEmpty then none
       else some ("print(2)" : String)) :=
  no_codeblock_cog_skips_language_check
    ⟨some (fun c _ => c), none, "https://paste.example/raw/{key}",
      fun _ => (200, "")⟩
    rfl (fun c _ => c) rfl "print(2)" false

/-- Counterexample to C1: the message `paste.disnake.dev/?id=abcd`
contains a recognized paste URL and its fetch fails with status 404, yet
`parse_code` is not a rejection: it falls back to the inline extractor,
which yields the message itself, and accepts it with the inline origin
flag. -/
theorem parse_code_fetch_fail_not_rejected_cex :
    parse_code botFetchFail "paste.disnake.dev/?id=abcd" false false =
      .ok (true, some "paste.disnake.dev/?id=abcd", some false) := by
  rfl

/-- Claim C1 as amended: when the message contains a recognized paste
URL and the fetch fails (so `check_paste_link` swallows it into `None`),
`parse_code` DOES consult the inline extractor: its result is the
eligibility filter applied to `get_code` with the inline origin, not an
unconditional rejection. -/
theorem parse_code_fetch_fail_falls_back (bot : Bot) (content : String)
    (rf cp : Bool)
    (_hm : (PASTE_REGEX_search content).isSome = true)
    (hcpl : check_paste_link bot content = .ok none) :
    parse_code bot content rf cp =
      .ok (finalize (get_code bot content rf cp) false) := by
  rw [parse_code_ok_cases bot content rf cp none hcpl]
  rw [if_neg (by decide)]

/-- Witness for the amended C1: a paste link whose fetch returns status
500 falls through to the inline branch. -/
theorem parse_code_fetch_fail_falls_back_witness :
    parse_code
        ⟨some prepare_input, none, "https://paste.example/raw/{key}",
          fun _ => (500, "err")⟩
        "https://paste.nextcord.dev/?id=qq" false false =
      .ok (finalize
        (get_code
          ⟨some prepare_input, none, "https://paste.example/raw/{key}",
            fun _ => (500, "err")⟩
          "https://paste.nextcord.dev/?id=qq" false false) false) :=
  parse_code_fetch_fail_falls_back
    ⟨some prepare_input, none, "https://paste.example/raw/{key}",
      fun _ => (500, "err")⟩
    "https://paste.nextcord.dev/?id=qq" false false (by decide) (by rfl)

/-- Counterexample to C2: the message `paste.disnake.dev/x` matches the
paste URL pattern but carries no `id` query parameter, so
`query_strings["id"][0]` raises a `KeyError` that propagates out of
`parse_code` instead of a structured rejection. -/
theorem parse_code_keyerror_cex :
    parse_code botNoId "paste.disnake.dev/x" false false =
      .error (.keyError "id") := by
  rfl

/-- Claim C2 as amended: `parse_code` returns a structured result — and
non-200 fetches are swallowed into no-paste — for every input whose
matched paste URL (if any) carries a non-empty `id` query value; when the
matched URL has no such value, `check_paste_link` raises `KeyError` and
`parse_code` propagates it. -/
theorem parse_code_total_when_id_found (bot : Bot) (content : String)
    (rf cp : Bool)
    (hid : ∀ m, PASTE_REGEX_search content = some m →
      (qsIdFirst (qsPairs (urlQuery m.data))).isSome = true) :
    ∃ r, parse_code bot content rf cp = .ok r := by
  have hcheck : ∃ pc, check_paste_link bot content = .ok pc := by
    cases hm : PASTE_REGEX_search content with
    | none => exact ⟨none, check_paste_link_of_no_match bot content hm⟩
    | some m =>
      cases hqs : qsIdFirst (qsPairs (urlQuery m.data)) with
      | none =>
        have hh := hid m hm
        rw [hqs] at hh
        exact absurd hh (by decide)
      | some idc =>
        rw [check_paste_link_of_match bot content m idc hm hqs]
        by_cases hst :
            (bot.fetch ⟨formatKey idc bot.raw_paste_endpoint.data⟩).1 ≠ 200
        · exact ⟨none, by rw [if_pos hst]⟩
        · exact ⟨_, by rw [if_neg hst]⟩
  obtain ⟨pc, hpc⟩ := hcheck
  rw [parse_code_ok_cases bot content rf cp pc hpc]
  by_cases ht : truthy pc = true
  · rw [if_pos ht]
    exact ⟨_, rfl⟩
  · rw [if_neg ht]
    exact ⟨_, rfl⟩

/-- Witness for the amended C2: a message with no paste URL at all
satisfies the id-present hypothesis vacuously and gets a structured
result. -/
theorem parse_code_total_when_id_found_witness :
    ∃ r, parse_code
      ⟨none, none, "https://paste.example/raw/{key}", fun _ => (200, "hi")⟩
      "just words" false false = .ok r :=
  parse_code_total_when_id_found
    ⟨none, none, "https://paste.example/raw/{key}", fun _ => (200, "hi")⟩
    "just words" false false
    (by
      intro m hm
      rw [show PASTE_REGEX_search "just words" = none from rfl] at hm
      exact Option.noConfusion hm)

example : prepare_input "no code here" true = "" := by decide
example : prepare_input "a \x60\x60\x60py\nprint(1)\n\x60\x60\x60 b" false =
    "print(1)" := by decide

end Monty
